import Mathlib

/-!
Verification of `metadata_search.go` from Pexeso/ae-sdk-go (package pexae).

The Go file wraps an underlying C SDK.  The embedding below models:
  * Go slices (`GoSlice`), distinguishing the nil slice (`var s []T`) from a
    non-nil slice, because `append` is the only slice operation the file uses
    and zero loop iterations leave the slice nil;
  * the data a completed C result handle delivers through its two cursors
    (`CResult`, `CMatch`, `CSegment`): `AE_MetadataSearchResult_NextMatch`
    walks the matches in server-delivered order, and
    `AE_MetadataSearchMatch_NextSegment` walks each match's segments in
    server-delivered order, so a completed handle is modelled by the ordered
    lists those cursors will yield;
  * the environment of one `Start` call (`StartEnv`): the outcome
    `statusToError` reports for the `AE_MetadataSearch_Start` status, the
    lookup ID `AE_MetadataSearchFuture_GetLookupID` returns, and the outcome
    the allocated future handle will later deliver on
    `AE_MetadataSearchFuture_Get` (`FetchOutcome`);
  * `statusToError` (an external collaborator per the package layout: it
    lives in another file) only through its observable outcome: `none` for
    an OK status, `some code` for a failed one, surfaced as
    `SdkError.fromStatus code`;
  * the `sync.Mutex` in `MetadataSearchFuture` by treating the whole body of
    `Get` as one atomic step (the source locks on entry and unlocks via
    `defer`, so every concurrent execution is equivalent to some sequential
    order of atomic `Get` calls, quantified over by `getN`);
  * C-side allocation (`AE_*_New`) as succeeding (the out-of-memory branch
    panics and is the fatal/unexpected path, irrelevant to the claims).
Go `uint64` fields carry no arithmetic in this file (values are only copied),
so they are modelled as `Nat`; `int64` segment offsets likewise carry no
arithmetic and are modelled as `Int`.
-/

namespace Pexae

/-- A Go slice value.  `nil` is the zero value (`var s []T`); `mk l` is a
non-nil slice holding the elements `l` in order. -/
inductive GoSlice (α : Type) where
  | nil : GoSlice α
  | mk : List α → GoSlice α
deriving DecidableEq

namespace GoSlice

/-- Go's `append(s, a)`: appending to a nil slice allocates, so the result is
always non-nil. -/
def append {α : Type} : GoSlice α → α → GoSlice α
  | nil, a => mk [a]
  | mk l, a => mk (l ++ [a])

/-- The elements a Go slice holds, in order (`len`/`range` semantics: a nil
slice iterates as empty). -/
def toList {α : Type} : GoSlice α → List α
  | nil => []
  | mk l => l

/-- Whether the slice compares equal to `nil` in Go (`s == nil`). -/
def isNil {α : Type} : GoSlice α → Bool
  | nil => true
  | mk _ => false

end GoSlice

/-- Data one step of `AE_MetadataSearchMatch_NextSegment` yields: the four
`int64` offsets written through the out-parameters (lines 148-151, 155). -/
structure CSegment where
  queryStart : Int
  queryEnd : Int
  assetStart : Int
  assetEnd : Int
deriving DecidableEq

/-- Data one step of `AE_MetadataSearchResult_NextMatch` yields into the
`cMatch` handle: the asset ID (`AE_MetadataSearchMatch_GetAssetID`, line 165)
and the ordered segments its nested cursor will deliver (line 155). -/
structure CMatch where
  assetID : Nat
  segments : List CSegment
deriving DecidableEq

/-- A completed C result handle (`AE_MetadataSearchResult`): its lookup ID and
UGC ID getters (lines 171-172) and the ordered matches its cursor will deliver
(line 147). -/
structure CResult where
  lookupID : Nat
  ugcID : Nat
  matchList : List CMatch
deriving DecidableEq

/-- Go struct `Segment`, as constructed at lines 156-161.  Its declaration
lives in another file of the package; the four `int64` field names and types
are read off the construction site and spec section 3. -/
structure Segment where
  QueryStart : Int
  QueryEnd : Int
  AssetStart : Int
  AssetEnd : Int
deriving DecidableEq

/-- Go struct `MetadataSearchMatch` (lines 39-47). -/
structure MetadataSearchMatch where
  AssetID : Nat
  Segments : GoSlice Segment
deriving DecidableEq

/-- Go struct `MetadataSearchResult` (lines 24-34). -/
structure MetadataSearchResult where
  LookupID : Nat
  UGCID : Nat
  Matches : GoSlice MetadataSearchMatch
deriving DecidableEq

/-- The body of the inner loop at lines 156-161: build a `Segment` from the
four offsets the segment cursor yielded, verbatim. -/
def decodeSegment (s : CSegment) : Segment :=
  { QueryStart := s.queryStart
    QueryEnd := s.queryEnd
    AssetStart := s.assetStart
    AssetEnd := s.assetEnd }

/-- The inner loop of `processResult` (lines 155-162): while
`AE_MetadataSearchMatch_NextSegment` yields data, append the built `Segment`
to `segments` (which starts as the nil slice declared at line 153). -/
def segmentsLoop : List CSegment → GoSlice Segment → GoSlice Segment
  | [], segments => segments
  | s :: rest, segments => segmentsLoop rest (segments.append (decodeSegment s))

/-- The body of the outer loop at lines 164-167: build a `MetadataSearchMatch`
from the asset ID the match cursor yielded and the fully decoded segments. -/
def decodeMatch (cMatch : CMatch) : MetadataSearchMatch :=
  { AssetID := cMatch.assetID
    Segments := segmentsLoop cMatch.segments GoSlice.nil }

/-- The outer loop of `processResult` (lines 147-168): while
`AE_MetadataSearchResult_NextMatch` yields data, run the inner segments loop
and append the built match to `matches` (nil slice declared at line 145). -/
def matchesLoop : List CMatch → GoSlice MetadataSearchMatch → GoSlice MetadataSearchMatch
  | [], ms => ms
  | cMatch :: rest, ms => matchesLoop rest (ms.append (decodeMatch cMatch))

/-- `MetadataSearchFuture.processResult` (lines 137-175): walk both cursors,
then assemble the result with the lookup/UGC IDs read from the handle. -/
def processResult (cResult : CResult) : MetadataSearchResult :=
  { LookupID := cResult.lookupID
    UGCID := cResult.ugcID
    Matches := matchesLoop cResult.matchList GoSlice.nil }

/-- Errors surfaced by this file.  `alreadyCalled` is
`errors.New("already called")` (line 109); `fromStatus code` is the non-nil
error `statusToError` (external collaborator) built from a failed C status. -/
inductive SdkError where
  | alreadyCalled : SdkError
  | fromStatus : Nat → SdkError
deriving DecidableEq

/-- What `AE_MetadataSearchFuture_Get` followed by `statusToError` will
deliver for a live future handle: either a failed status translated to error
`code`, or an OK status together with the completed result data. -/
inductive FetchOutcome where
  | failure : Nat → FetchOutcome
  | success : CResult → FetchOutcome
deriving DecidableEq

/-- Go struct `MetadataSearchFuture` (lines 94-99).  The C handle pointer `c`
is `none` once consumed (nulled by `close`, line 134); while live it carries
the outcome the service will deliver.  The mutex field `m` is modelled by
`get` being one atomic step. -/
structure MetadataSearchFuture where
  LookupID : Nat
  c : Option FetchOutcome
deriving DecidableEq

/-- Everything one call to `MetadataSearchFuture.Get` returns or observably
changes: the two Go return values, the future's state after the call (the
method mutates `x.c`), and whether `close` ran (i.e. whether
`AE_MetadataSearchFuture_Delete` released the C handle during this call). -/
structure GetOut where
  result : Option MetadataSearchResult
  err : Option SdkError
  future : MetadataSearchFuture
  closed : Bool
deriving DecidableEq

/-- `MetadataSearchFuture.Get` (lines 104-130).  Under the lock: if `x.c` is
nil return `(nil, errors.New("already called"))` (lines 108-110); otherwise
`defer x.close()` (line 111) nulls and releases the handle on every following
exit path; then the fetch either fails (`statusToError` non-nil, lines
125-128, return `(nil, err)`) or succeeds (line 129, return
`(processResult(cResult), nil)`). -/
def get (x : MetadataSearchFuture) : GetOut :=
  match x.c with
  | none =>
      { result := none, err := some SdkError.alreadyCalled, future := x, closed := false }
  | some out =>
      match out with
      | FetchOutcome.failure code =>
          { result := none, err := some (SdkError.fromStatus code)
            future := { x with c := none }, closed := true }
      | FetchOutcome.success cResult =>
          { result := some (processResult cResult), err := none
            future := { x with c := none }, closed := true }

/-- `n` sequential calls to `Get` on the same future.  The mutex serializes
concurrent callers, so every concurrent execution of `n` calls is equivalent
to this sequence for the order the lock granted; returns each call's
observation, in that order, and the final future state. -/
def getN : Nat → MetadataSearchFuture → List GetOut × MetadataSearchFuture
  | 0, x => ([], x)
  | n + 1, x =>
      let o := get x
      let rest := getN n o.future
      (o :: rest.1, rest.2)

/-- Go struct `Fingerprint` with its C handle field `ft`, as used at line 77
(`req.Fingerprint.ft`); declared in another file of the package and opaque
here. -/
structure Fingerprint where
  ft : Nat
deriving DecidableEq

/-- Go struct `MetadataSearchRequest` (lines 16-20).  `Fingerprint` is a Go
pointer, hence `Option`: `none` is a nil pointer. -/
structure MetadataSearchRequest where
  Fingerprint : Option Fingerprint
deriving DecidableEq

/-- Go struct `MetadataSearch` (lines 52-54); its C session handle is opaque
to the claims. -/
structure MetadataSearch where
  c : Nat
deriving DecidableEq

/-- The three C handles `Start` allocates (lines 60, 66, 72). -/
inductive CRes where
  | cStatus : CRes
  | cRequest : CRes
  | cFuture : CRes
deriving DecidableEq

/-- Environment of one `Start` call: what `statusToError` reports for the
`AE_MetadataSearch_Start` status (line 80; `none` = OK), the lookup ID
`AE_MetadataSearchFuture_GetLookupID` returns (line 87), and what the
allocated future handle will later deliver on `Get`. -/
structure StartEnv where
  submitOutcome : Option Nat
  lookupID : Nat
  futureOutcome : FetchOutcome
deriving DecidableEq

/-- Outcome of one `Start` call: either the Go runtime panic from
dereferencing a nil `req.Fingerprint` at line 77, or a normal return carrying
the two Go return values and the list of C handles allocated during the call
that are still live when it returns (the success-path future handle is owned
by the returned future). -/
inductive StartOutcome where
  | panicNilDeref : StartOutcome
  | ret : Option MetadataSearchFuture → Option SdkError → List CRes → StartOutcome
deriving DecidableEq

/-- `MetadataSearch.Start` (lines 59-90).  Allocates `cStatus`, `cRequest`,
`cFuture` (lines 60-75; the first two are released by `defer` on every
return).  Line 77 dereferences `req.Fingerprint` unguarded: a nil pointer
panics.  Then `AE_MetadataSearch_Start` + `statusToError` (lines 79-80): on
error, `cFuture` is deleted explicitly (line 82) and `(nil, err)` returned;
on success a live future carrying the lookup ID and owning `cFuture` is
returned (lines 86-89). -/
def start (env : StartEnv) (x : MetadataSearch) (req : MetadataSearchRequest) :
    StartOutcome :=
  let live0 : List CRes := [CRes.cStatus]
  let live1 : List CRes := live0 ++ [CRes.cRequest]
  let live2 : List CRes := live1 ++ [CRes.cFuture]
  match req.Fingerprint with
  | none => StartOutcome.panicNilDeref
  | some _ =>
      match env.submitOutcome with
      | some code =>
          StartOutcome.ret none (some (SdkError.fromStatus code))
            (((live2.erase CRes.cFuture).erase CRes.cRequest).erase CRes.cStatus)
      | none =>
          StartOutcome.ret
            (some { LookupID := env.lookupID, c := some env.futureOutcome })
            none
            ((live2.erase CRes.cRequest).erase CRes.cStatus)


/-- Sample segment data (the offsets named by spec section 8, property 7). -/
def sampleSegment : CSegment :=
  { queryStart := 10, queryEnd := 20, assetStart := 100, assetEnd := 110 }

/-- Sample match data for concrete evaluations. -/
def sampleMatch : CMatch := { assetID := 77, segments := [sampleSegment] }

/-- Sample completed result data for concrete evaluations. -/
def sampleCResult : CResult :=
  { lookupID := 12, ugcID := 34, matchList := [sampleMatch] }

/-- A live future whose fetch will succeed with `sampleCResult`. -/
def sampleFuture : MetadataSearchFuture :=
  { LookupID := 12, c := some (FetchOutcome.success sampleCResult) }

/-- A live future whose fetch will fail with status error code 3. -/
def sampleFailedFuture : MetadataSearchFuture :=
  { LookupID := 12, c := some (FetchOutcome.failure 3) }

/-- A request carrying a (non-nil) fingerprint. -/
def sampleRequest : MetadataSearchRequest := { Fingerprint := some { ft := 1 } }

/-- A request whose `Fingerprint` pointer is nil. -/
def sampleNilRequest : MetadataSearchRequest := { Fingerprint := none }

/-- A search session handle. -/
def sampleSession : MetadataSearch := { c := 0 }

/-- A `Start` environment whose submit call fails with status error code 3. -/
def sampleFailEnv : StartEnv :=
  { submitOutcome := some 3, lookupID := 12,
    futureOutcome := FetchOutcome.success sampleCResult }

/-- A `Start` environment whose submit call succeeds and whose future will
deliver `sampleCResult`, which echoes the same lookup ID 12. -/
def sampleOkEnv : StartEnv :=
  { submitOutcome := none, lookupID := 12,
    futureOutcome := FetchOutcome.success sampleCResult }

/-! ## Helper lemmas -/

theorem GoSlice.toList_append {α : Type} (s : GoSlice α) (a : α) :
    (s.append a).toList = s.toList ++ [a] := by
  cases s <;> rfl

theorem segmentsLoop_toList (ss : List CSegment) (acc : GoSlice Segment) :
    (segmentsLoop ss acc).toList = acc.toList ++ ss.map decodeSegment := by
  induction ss generalizing acc with
  | nil => simp [segmentsLoop]
  | cons s rest ih => simp [segmentsLoop, ih, GoSlice.toList_append]

theorem matchesLoop_toList (ms : List CMatch) (acc : GoSlice MetadataSearchMatch) :
    (matchesLoop ms acc).toList = acc.toList ++ ms.map decodeMatch := by
  induction ms generalizing acc with
  | nil => simp [matchesLoop]
  | cons cm rest ih => simp [matchesLoop, ih, GoSlice.toList_append]

theorem processResult_Matches_toList (r : CResult) :
    (processResult r).Matches.toList = r.matchList.map decodeMatch := by
  show (matchesLoop r.matchList GoSlice.nil).toList = _
  rw [matchesLoop_toList]
  rfl

theorem get_consumed (x : MetadataSearchFuture) (h : x.c = none) :
    get x = { result := none, err := some SdkError.alreadyCalled,
              future := x, closed := false } := by
  simp [get, h]

theorem getN_consumed (n : Nat) (x : MetadataSearchFuture) (h : x.c = none) :
    getN n x =
      (List.replicate n
        { result := none, err := some SdkError.alreadyCalled,
          future := x, closed := false }, x) := by
  induction n with
  | zero => rfl
  | succ k ih => simp [getN, get_consumed x h, ih, List.replicate_succ]

theorem get_live_consumes (f : MetadataSearchFuture) (out : FetchOutcome)
    (h : f.c = some out) : (get f).future.c = none := by
  cases out <;> simp [get, h]

/-! ## Claim theorems -/

/-- C1: for every future, once a first call to `Get` on a live future has
returned (whether with a result or with an error), the handle is consumed and
every subsequent sequential call to `Get` returns no result and the
AlreadyConsumed error (`errors.New("already called")`). -/
theorem c1_at_most_once_consumption (f : MetadataSearchFuture) (n : Nat)
    (h : f.c.isSome) :
    (get f).future.c = none ∧
    ∀ o ∈ (getN n (get f).future).1,
      o.result = none ∧ o.err = some SdkError.alreadyCalled := by
  obtain ⟨out, hc⟩ := Option.isSome_iff_exists.mp h
  have hfut : (get f).future.c = none := get_live_consumes f out hc
  refine ⟨hfut, ?_⟩
  intro o ho
  rw [(getN_consumed n _ hfut)] at ho
  have hrep := List.eq_of_mem_replicate ho
  subst hrep
  exact ⟨rfl, rfl⟩

/-- C1 witness at a concrete live future and two subsequent calls. -/
theorem c1_at_most_once_consumption_witness :
    (get sampleFuture).future.c = none ∧
    ∀ o ∈ (getN 2 (get sampleFuture).future).1,
      o.result = none ∧ o.err = some SdkError.alreadyCalled :=
  c1_at_most_once_consumption sampleFuture 2 (by decide)

/-- C2: when the remote fetch step of `Get` fails, `Get` returns that error
and no result, and the internal handle has still been transitioned to
consumed (nulled and released by the deferred `close`) before returning. -/
theorem c2_error_path_releases (f : MetadataSearchFuture) (code : Nat)
    (h : f.c = some (FetchOutcome.failure code)) :
    (get f).result = none ∧
    (get f).err = some (SdkError.fromStatus code) ∧
    (get f).future.c = none ∧
    (get f).closed = true := by
  simp [get, h]

/-- C2 witness at a concrete future whose fetch fails. -/
theorem c2_error_path_releases_witness :
    (get sampleFailedFuture).result = none ∧
    (get sampleFailedFuture).err = some (SdkError.fromStatus 3) ∧
    (get sampleFailedFuture).future.c = none ∧
    (get sampleFailedFuture).closed = true :=
  c2_error_path_releases sampleFailedFuture 3 (by decide)

/-- C3 counterexample: the claim asserts the zero-match `Matches` sequence
and zero-segment `Segments` sequence are non-null; on the code, zero loop
iterations never call `append`, so both stay the Go nil slice. -/
theorem c3_counterexample_nil_slices :
    (processResult { lookupID := 12, ugcID := 34, matchList := [] }).Matches =
      GoSlice.nil ∧
    (processResult
        { lookupID := 12, ugcID := 34,
          matchList := [{ assetID := 77, segments := [] }] }).Matches.toList =
      [{ AssetID := 77, Segments := GoSlice.nil }] := by
  decide

/-- C3 (amended): a completed result with zero matches decodes to a
SearchResult whose `Matches` iterates as empty but is the nil slice (not a
non-nil empty slice); a match with zero segments decodes, at its position, to
a Match whose `Segments` iterates as empty but is the nil slice. -/
theorem c3_empty_decodes_to_nil_slice (r r2 : CResult) (i : Nat) (cm : CMatch)
    (h : r.matchList = []) (h2 : r2.matchList[i]? = some cm)
    (h3 : cm.segments = []) :
    ((processResult r).Matches = GoSlice.nil ∧
      (processResult r).Matches.toList = []) ∧
    ∃ dm, ((processResult r2).Matches.toList)[i]? = some dm ∧
      dm.Segments = GoSlice.nil ∧ dm.Segments.toList = [] := by
  refine ⟨⟨?_, ?_⟩, decodeMatch cm, ?_, ?_, ?_⟩
  · simp [processResult, h, matchesLoop]
  · simp [processResult, h, matchesLoop, GoSlice.toList]
  · rw [processResult_Matches_toList, List.getElem?_map, h2]
    rfl
  · simp [decodeMatch, h3, segmentsLoop]
  · simp [decodeMatch, h3, segmentsLoop, GoSlice.toList]

/-- C3 witness at concrete zero-match and zero-segment results. -/
theorem c3_empty_decodes_to_nil_slice_witness :
    ((processResult { lookupID := 12, ugcID := 34, matchList := [] }).Matches =
        GoSlice.nil ∧
      (processResult
          { lookupID := 12, ugcID := 34, matchList := [] }).Matches.toList =
        []) ∧
    ∃ dm,
      ((processResult
          { lookupID := 12, ugcID := 34,
            matchList := [{ assetID := 77, segments := [] }] }).Matches.toList)[0]? =
        some dm ∧
      dm.Segments = GoSlice.nil ∧ dm.Segments.toList = [] :=
  c3_empty_decodes_to_nil_slice
    { lookupID := 12, ugcID := 34, matchList := [] }
    { lookupID := 12, ugcID := 34, matchList := [{ assetID := 77, segments := [] }] }
    0 { assetID := 77, segments := [] } rfl (by decide) rfl

/-- C4: the decoded `Matches` sequence is exactly the cursor-delivered
matches, decoded in order (no re-sort, no drop, no duplicate), and every
decoded match's `Segments` is exactly its cursor-delivered segments, decoded
in order. -/
theorem c4_order_preservation (r : CResult) :
    (processResult r).Matches.toList = r.matchList.map decodeMatch ∧
    ∀ cm : CMatch,
      (decodeMatch cm).Segments.toList = cm.segments.map decodeSegment := by
  refine ⟨processResult_Matches_toList r, ?_⟩
  intro cm
  show (segmentsLoop cm.segments GoSlice.nil).toList = _
  rw [segmentsLoop_toList]
  rfl

/-- C5: a segment the cursor yields with offsets (QueryStart, QueryEnd,
AssetStart, AssetEnd) decodes, at its position, to a `Segment` holding
exactly those four values, unmodified and unreordered. -/
theorem c5_segment_offset_fidelity (r : CResult) (mi si : Nat)
    (cm : CMatch) (cs : CSegment)
    (hm : r.matchList[mi]? = some cm) (hs : cm.segments[si]? = some cs) :
    ∃ dm, ((processResult r).Matches.toList)[mi]? = some dm ∧
      (dm.Segments.toList)[si]? = some
        { QueryStart := cs.queryStart, QueryEnd := cs.queryEnd,
          AssetStart := cs.assetStart, AssetEnd := cs.assetEnd } := by
  refine ⟨decodeMatch cm, ?_, ?_⟩
  · rw [processResult_Matches_toList, List.getElem?_map, hm]
    rfl
  · show ((segmentsLoop cm.segments GoSlice.nil).toList)[si]? = _
    rw [segmentsLoop_toList]
    show (cm.segments.map decodeSegment)[si]? = _
    rw [List.getElem?_map, hs]
    rfl

/-- C5 witness at the spec's concrete offsets 10, 20, 100, 110. -/
theorem c5_segment_offset_fidelity_witness :
    ∃ dm, ((processResult sampleCResult).Matches.toList)[0]? = some dm ∧
      (dm.Segments.toList)[0]? = some
        { QueryStart := 10, QueryEnd := 20,
          AssetStart := 100, AssetEnd := 110 } :=
  c5_segment_offset_fidelity sampleCResult 0 0 sampleMatch sampleSegment
    (by decide) (by decide)

/-- C6: when the remote submit call fails, `Start` returns a nil future and
the submission error, and every C handle allocated during the attempt has
been released before returning (the explicit `cFuture` delete plus the two
deferred deletes leave nothing live). -/
theorem c6_submit_failure_no_leak (env : StartEnv) (x : MetadataSearch)
    (req : MetadataSearchRequest) (fp : Fingerprint) (code : Nat)
    (hfp : req.Fingerprint = some fp) (hfail : env.submitOutcome = some code) :
    start env x req =
      StartOutcome.ret none (some (SdkError.fromStatus code)) [] := by
  simp [start, hfp, hfail]

/-- C6 witness at a concrete failing submit environment. -/
theorem c6_submit_failure_no_leak_witness :
    start sampleFailEnv sampleSession sampleRequest =
      StartOutcome.ret none (some (SdkError.fromStatus 3)) [] :=
  c6_submit_failure_no_leak sampleFailEnv sampleSession sampleRequest
    { ft := 1 } 3 (by decide) (by decide)

/-- C7: when the service reports the same lookup identifier at submission and
in the completed result, the `LookupID` carried by the future `Start` returns
equals the `LookupID` of the result the first successful `Get` returns. -/
theorem c7_lookup_id_roundtrip (env : StartEnv) (x : MetadataSearch)
    (req : MetadataSearchRequest) (fp : Fingerprint) (cRes : CResult)
    (hfp : req.Fingerprint = some fp) (hok : env.submitOutcome = none)
    (hres : env.futureOutcome = FetchOutcome.success cRes)
    (hsame : env.lookupID = cRes.lookupID) :
    ∃ f res,
      start env x req = StartOutcome.ret (some f) none [CRes.cFuture] ∧
      (get f).result = some res ∧
      res.LookupID = f.LookupID := by
  refine ⟨{ LookupID := env.lookupID, c := some env.futureOutcome },
    processResult cRes, ?_, ?_, ?_⟩
  · simp [start, hfp, hok]
  · simp [get, hres]
  · simp [processResult, hsame]

/-- C7 witness at a concrete environment echoing lookup ID 12. -/
theorem c7_lookup_id_roundtrip_witness :
    ∃ f res,
      start sampleOkEnv sampleSession sampleRequest =
        StartOutcome.ret (some f) none [CRes.cFuture] ∧
      (get f).result = some res ∧
      res.LookupID = f.LookupID :=
  c7_lookup_id_roundtrip sampleOkEnv sampleSession sampleRequest
    { ft := 1 } sampleCResult (by decide) (by decide) (by decide) (by decide)

/-- C9: every call to `Get` returns exactly one of a non-nil result or a
non-nil error, never both and never neither. -/
theorem c9_result_xor_error (f : MetadataSearchFuture) :
    ((get f).result.isSome ∧ (get f).err = none) ∨
    ((get f).result = none ∧ (get f).err.isSome) := by
  match hc : f.c with
  | none =>
    right
    simp [get, hc]
  | some (FetchOutcome.failure code) =>
    right
    simp [get, hc]
  | some (FetchOutcome.success r) =>
    left
    simp [get, hc]

/-- C10: a request whose `Fingerprint` pointer is nil makes `Start` panic on
the unguarded dereference at line 77 rather than return any error value, so
the spec's optional InvalidArgument fail-fast is not implemented. -/
theorem c10_nil_fingerprint_panics (env : StartEnv) (x : MetadataSearch)
    (req : MetadataSearchRequest) (h : req.Fingerprint = none) :
    start env x req = StartOutcome.panicNilDeref ∧
    ∀ (fo : Option MetadataSearchFuture) (e : Option SdkError) (l : List CRes),
      start env x req ≠ StartOutcome.ret fo e l := by
  have hp : start env x req = StartOutcome.panicNilDeref := by
    simp [start, h]
  refine ⟨hp, ?_⟩
  intro fo e l hne
  rw [hp] at hne
  exact StartOutcome.noConfusion hne

/-- C10 witness at a concrete nil-fingerprint request. -/
theorem c10_nil_fingerprint_panics_witness :
    start sampleOkEnv sampleSession sampleNilRequest =
      StartOutcome.panicNilDeref ∧
    ∀ (fo : Option MetadataSearchFuture) (e : Option SdkError) (l : List CRes),
      start sampleOkEnv sampleSession sampleNilRequest ≠
        StartOutcome.ret fo e l :=
  c10_nil_fingerprint_panics sampleOkEnv sampleSession sampleNilRequest
    (by decide)

/-- C8: the mutex makes each `Get` body one atomic step, so any concurrent
execution of N calls on one future is equivalent to a sequential order of
atomic calls; for every such order on a live future, exactly one call
performs the wait/decode/release (receiving the decoded result or the fetch
error), the handle is released exactly once (never double-released), and
every other call receives AlreadyConsumed with no result and releases
nothing. -/
theorem c8_concurrent_single_winner (n : Nat) (f : MetadataSearchFuture)
    (hn : 1 ≤ n) (hf : f.c.isSome) :
    ((getN n f).1.countP
        (fun o => decide (o.err ≠ some SdkError.alreadyCalled)) = 1) ∧
    ((getN n f).1.countP (fun o => o.closed) = 1) ∧
    ∀ o ∈ (getN n f).1, o.err = some SdkError.alreadyCalled →
      o.result = none ∧ o.closed = false := by
  obtain ⟨out, hc⟩ := Option.isSome_iff_exists.mp hf
  obtain ⟨m, rfl⟩ : ∃ m, n = m + 1 := ⟨n - 1, (Nat.succ_pred_eq_of_pos hn).symm⟩
  have hcons : (get f).future.c = none := get_live_consumes f out hc
  have hwinerr : (get f).err ≠ some SdkError.alreadyCalled := by
    cases out <;> simp [get, hc]
  have hwinclosed : (get f).closed = true := by
    cases out <;> simp [get, hc]
  have hrep : (getN m (get f).future).1 =
      List.replicate m
        { result := none, err := some SdkError.alreadyCalled,
          future := (get f).future, closed := false } := by
    rw [getN_consumed m _ hcons]
  have hsplit : (getN (m + 1) f).1 = get f :: (getN m (get f).future).1 := rfl
  have hz1 : (List.replicate m
      ({ result := none, err := some SdkError.alreadyCalled,
         future := (get f).future, closed := false } : GetOut)).countP
      (fun o => decide (o.err ≠ some SdkError.alreadyCalled)) = 0 := by
    refine List.countP_eq_zero.mpr ?_
    intro a ha
    rw [List.eq_of_mem_replicate ha]
    simp
  have hz2 : (List.replicate m
      ({ result := none, err := some SdkError.alreadyCalled,
         future := (get f).future, closed := false } : GetOut)).countP
      (fun o => o.closed) = 0 := by
    refine List.countP_eq_zero.mpr ?_
    intro a ha
    rw [List.eq_of_mem_replicate ha]
    simp
  refine ⟨?_, ?_, ?_⟩
  · rw [hsplit, hrep, List.countP_cons, hz1]
    simp [hwinerr]
  · rw [hsplit, hrep, List.countP_cons, hz2]
    simp [hwinclosed]
  · intro o ho herr
    rw [hsplit, hrep] at ho
    rcases List.mem_cons.mp ho with h1 | h2
    · rw [h1] at herr
      exact absurd herr hwinerr
    · rw [List.eq_of_mem_replicate h2]
      exact ⟨rfl, rfl⟩

/-- C8 witness: three serialized calls on a concrete live future. -/
theorem c8_concurrent_single_winner_witness :
    ((getN 3 sampleFuture).1.countP
        (fun o => decide (o.err ≠ some SdkError.alreadyCalled)) = 1) ∧
    ((getN 3 sampleFuture).1.countP (fun o => o.closed) = 1) ∧
    ∀ o ∈ (getN 3 sampleFuture).1, o.err = some SdkError.alreadyCalled →
      o.result = none ∧ o.closed = false :=
  c8_concurrent_single_winner 3 sampleFuture (by decide) (by decide)

end Pexae
